import Mathlib

/-!
# Verification of TurboX Desktop session/captcha/bridge logic

Shallow embedding of the token-extraction, CAPTCHA-solving, session-update,
configuration-loading and HTTP-routing code of the TurboX Desktop repository
(`src/session_manager.py`, `src/socket_bridge.py`,
`src/automation_controller.py`), together with theorems settling the
specification claims about that code.

Conventions used throughout:
* Python `str` is modelled as Lean `String`; character-level scanning is done
  on `String.data : List Char`.  Python's `str.lower()` is modelled by the
  ASCII `Char.toLower`; all keyword lists in the source are ASCII.
* Python `dict` is modelled as an association list `List (String × α)`;
  `dictGet` returns the binding of the first occurrence of a key and
  `setKey` (Python `d[k] = v`) overwrites that first occurrence or appends.
* Machine integers do not overflow in the modelled code (Python integers are
  unbounded), so `Nat`/`Int` are used directly.
* `os.path.expanduser("~")` is modelled by the literal `"~"`; only the shape
  of the produced paths matters to the claims.
-/

namespace TurboX

/-! ## Python-style dictionaries as association lists -/

/-- A Python `dict` with `String` keys, as an association list. -/
abbrev Dict (α : Type) := List (String × α)

/-- Binding of the first occurrence of key `k` (Python `d.get(k)` /
`d[k]` when present). -/
def dictGet {α : Type} (d : Dict α) (k : String) : Option α :=
  match d with
  | [] => none
  | (k0, v0) :: rest => if k = k0 then some v0 else dictGet rest k

/-- Python `k in d`. -/
def containsKey {α : Type} (d : Dict α) (k : String) : Bool :=
  match d with
  | [] => false
  | (k0, _) :: rest => k = k0 || containsKey rest k

/-- Python `d[k] = v`: overwrite the (first) binding of `k`, or append a new
binding when `k` is absent. -/
def setKey {α : Type} (k : String) (v : α) (d : Dict α) : Dict α :=
  match d with
  | [] => [(k, v)]
  | (k0, v0) :: rest => if k = k0 then (k, v) :: rest else (k0, v0) :: setKey k v rest

/-- Binding of the *last* occurrence of key `k` in a pair list; this is the
value a Python `dict` built from (or updated with) those pairs ends up
holding for `k`. -/
def lastLookup {α : Type} (d : Dict α) (k : String) : Option α :=
  match d with
  | [] => none
  | (k0, v0) :: rest =>
    match lastLookup rest k with
    | some v => some v
    | none => if k = k0 then some v0 else none

/-- Python `d.update(new)`: assign each binding of `new`, in order, into `d`. -/
def pyDictUpdate {α : Type} (d new : Dict α) : Dict α :=
  new.foldl (fun acc kv => setKey kv.1 kv.2 acc) d

/-! ## String utilities (Python `str` operations on `List Char`) -/

/-- Python substring test `needle in hay` on character lists. -/
def hasSubList (needle hay : List Char) : Bool :=
  needle.isPrefixOf hay ||
    match hay with
    | [] => false
    | _ :: t => hasSubList needle t

/-- Python `needle in hay` for strings. -/
def strContains (hay needle : String) : Bool :=
  hasSubList needle.data hay.data

/-- Python `s.lower()` (ASCII, sufficient for the modelled keyword tests). -/
def lowerStr (s : String) : String :=
  ⟨s.data.map Char.toLower⟩

/-- Python `s.split(sep)` for a single-character separator. -/
def splitChar (sep : Char) : List Char → List (List Char)
  | [] => [[]]
  | c :: t =>
    match splitChar sep t with
    | [] => [[c]]
    | h :: rs => if c = sep then [] :: h :: rs else (c :: h) :: rs

/-- Python `s.split(sep, 1)` producing the part before and after the first
occurrence of `sep`, or `none` when `sep` does not occur. -/
def splitFirst (sep : Char) : List Char → Option (List Char × List Char)
  | [] => none
  | c :: t =>
    if c = sep then some ([], t)
    else (splitFirst sep t).map (fun p => (c :: p.1, p.2))

/-- Python `s.strip()` (ASCII whitespace). -/
def pyStrip (l : List Char) : List Char :=
  ((l.dropWhile Char.isWhitespace).reverse.dropWhile Char.isWhitespace).reverse

/-- `re.findall(r'\d+', s)` followed by `int(...)`: the maximal runs of
decimal digits in `s`, as numbers.  `acc` carries the run currently being
scanned. -/
def extractIntsAux : List Char → Option Nat → List Nat
  | [], none => []
  | [], some n => [n]
  | c :: rest, none =>
    if c.isDigit then extractIntsAux rest (some (c.toNat - 48))
    else extractIntsAux rest none
  | c :: rest, some n =>
    if c.isDigit then extractIntsAux rest (some (10 * n + (c.toNat - 48)))
    else n :: extractIntsAux rest none

/-- All integers appearing in a question string, in order. -/
def extractInts (s : String) : List Nat :=
  extractIntsAux s.data none

/-! ## JSON values (results of Python `json.loads`) -/

/-- A parsed JSON value.  Numbers are modelled as integers (the modelled code
never manipulates fractional JSON numbers); objects are association lists in
document order with the unique keys `json.loads` produces. -/
inductive Json where
  | null
  | bool (b : Bool)
  | num (n : Int)
  | str (s : String)
  | arr (elems : List Json)
  | obj (entries : List (String × Json))

/-! ## Token/cookie extraction
(`SessionManager.extract_tokens_from_request`, `SocketBridge._extract_tokens`)
-/

/-- Keyword list for `Set-Cookie` keys in
`SessionManager.extract_tokens_from_request` (line 328). -/
def smCookieKeywords : List String := ["session", "token", "auth", "jwt"]

/-- Keyword list for `Set-Cookie` keys in `SocketBridge._extract_tokens`
(line 387); note the extra `'bearer'`. -/
def sbCookieKeywords : List String := ["session", "token", "auth", "jwt", "bearer"]

/-- Keyword list for JSON response-body keys in
`SessionManager.extract_tokens_from_request` (line 339). -/
def smBodyKeywords : List String := ["token", "access", "refresh", "auth", "bearer"]

/-- Keyword list for JSON response-body keys in `SocketBridge._extract_tokens`
(line 403). -/
def sbBodyKeywords : List String := ["token", "access", "refresh", "auth"]

/-- `any(token in key.lower() for token in kws)`. -/
def keyMatches (kws : List String) (key : String) : Bool :=
  kws.any (fun t => strContains (lowerStr key) t)

/-- The `key=value` pairs obtained from a `Set-Cookie` header value: split on
`';'`, keep the fragments containing `'='`, split each at its first `'='` and
strip both sides.  (In `session_manager.py` the value additionally goes
through `value.split(';')[0]`, which is the identity because the fragment, a
piece of a `';'`-split, contains no `';'`.) -/
def cookiePairs (setCookie : String) : List (String × String) :=
  (splitChar ';' setCookie.data).filterMap (fun frag =>
    match splitFirst '=' frag with
    | some (k, v) => some (⟨pyStrip k⟩, ⟨pyStrip v⟩)
    | none => none)

/-- The conditional-insert loop shared by both extractors: keep the pairs
whose key satisfies `p`, building a Python dict. -/
def keepFold {α : Type} (p : String × α → Bool) (l : List (String × α)) : Dict α :=
  l.foldl (fun d kv => if p kv then setKey kv.1 kv.2 d else d) []

/-- `new_cookies` built by `SessionManager.extract_tokens_from_request`
(lines 320-329) from a `Set-Cookie` header value. -/
def smNewCookies (setCookie : String) : Dict String :=
  keepFold (fun kv => keyMatches smCookieKeywords kv.1) (cookiePairs setCookie)

/-- The cookies stored into `self.sessions[domain]['cookies']` by
`SocketBridge._extract_tokens` (lines 379-394) from a `set-cookie` header
value.  The per-domain indexing is orthogonal to the claims; a request whose
URL has no authority makes line 388 raise `IndexError`, which the
surrounding `try` turns into storing nothing — the claims quantify over
requests processed with a well-formed URL. -/
def sbNewCookies (setCookie : String) : Dict String :=
  keepFold (fun kv => keyMatches sbCookieKeywords kv.1) (cookiePairs setCookie)

/-- `isinstance(value, str) and len(value) > 10`, conjoined with the keyword
test on the key (lines 337-341 / 402-404). -/
def keepBodyField (kws : List String) (kv : String × Json) : Bool :=
  keyMatches kws kv.1 &&
    match kv.2 with
    | Json.str s => decide (s.length > 10)
    | _ => false

/-- `new_tokens` built from a parsed JSON-object response body (lines
334-341 of `session_manager.py`, 399-411 of `socket_bridge.py`), for the
given keyword list. -/
def newBodyTokens (kws : List String) (entries : List (String × Json)) : Dict Json :=
  keepFold (fun kv => keepBodyField kws kv) entries

/-- Lines 345-354 of `session_manager.py`: merging newly extracted tokens
(or cookies) into the session's stored mapping is Python `dict.update`. -/
def mergeNewTokens (current extracted : Dict String) : Dict String :=
  pyDictUpdate current extracted

/-! ## Base64 (`base64.b64decode`, default `validate=False`) -/

/-- Value of a standard base64 alphabet character. -/
def b64val (c : Char) : Option Nat :=
  if 'A' ≤ c ∧ c ≤ 'Z' then some (c.toNat - 65)
  else if 'a' ≤ c ∧ c ≤ 'z' then some (c.toNat - 97 + 26)
  else if '0' ≤ c ∧ c ≤ '9' then some (c.toNat - 48 + 52)
  else if c = '+' then some 62
  else if c = '/' then some 63
  else none

/-- Decode quartets of base64 characters into bytes; `none` models
`binascii.Error` (incorrect padding). -/
def b64groups : List Char → Option (List Nat)
  | [] => some []
  | a :: b :: c :: d :: rest => do
    let va ← b64val a
    let vb ← b64val b
    if c = '=' then
      if d = '=' ∧ rest = [] then some [va * 4 + vb / 16] else none
    else do
      let vc ← b64val c
      if d = '=' then
        if rest = [] then some [va * 4 + vb / 16, (vb % 16) * 16 + vc / 4] else none
      else do
        let vd ← b64val d
        let tail ← b64groups rest
        some ((va * 4 + vb / 16) :: ((vb % 16) * 16 + vc / 4) :: ((vc % 4) * 64 + vd) :: tail)
  | _ => none

/-- `base64.b64decode(s)`: with `validate=False` characters outside the
alphabet are discarded, then the data must form complete quartets (possibly
`'='`-padded), else `binascii.Error` — modelled as `none`. -/
def b64decode (s : String) : Option (List Nat) :=
  b64groups (s.data.filter (fun c => (b64val c).isSome || c = '='))

/-! ## CAPTCHA solving
(`SessionManager.solve_captcha`, `SocketBridge.solve_captcha`) -/

/-- The fields `solve_captcha` reads from `captcha_data`:
`.get('type', 'unknown')`, `.get('question', '')`, `.get('image', '')`. -/
structure CaptchaData where
  ctype : String
  question : String
  image : String

/-- `hashlib.md5(s.encode()).hexdigest()`, modelled as the identity on the
hashed text (a collision-free abstraction of the digest).  The source's
`hexdigest()[:32]` on the 32-character digest is the identity and needs no
separate model. -/
def md5hex (s : String) : String := s

/-- Lines 393-399: the cache key is the MD5 of the question text, else of
the image payload, else there is no key. -/
def captchaCacheKey (d : CaptchaData) : Option String :=
  if d.question ≠ "" then some (md5hex d.question)
  else if d.image ≠ "" then some (md5hex d.image)
  else none

/-- An entry of `self.captcha_cache`. -/
structure CacheEntry where
  solution : String
  timestamp : Nat

/-- Lines 401-406: a cached solution is returned only while
`time.time() - cached['timestamp'] < 300`. -/
def cacheFreshLookup (cache : Dict CacheEntry) (k : String) (now : Nat) : Option String :=
  match dictGet cache k with
  | some e => if (now : Int) - (e.timestamp : Int) < 300 then some e.solution else none
  | none => none

/-- Line 418: `'plus' in question.lower() or '+' in question`. -/
def plusCond (q : String) : Bool :=
  strContains (lowerStr q) "plus" || strContains q "+"

/-- Line 420: `'minus' in question.lower() or '-' in question`. -/
def minusCond (q : String) : Bool :=
  strContains (lowerStr q) "minus" || strContains q "-"

/-- Line 422: `'times' in question.lower() or '×' in question or '*' in question`. -/
def timesCond (q : String) : Bool :=
  strContains (lowerStr q) "times" || strContains q "×" || strContains q "*"

/-- Line 424: `'divide' in question.lower() or '÷' in question or '/' in question`. -/
def divCond (q : String) : Bool :=
  strContains (lowerStr q) "divide" || strContains q "÷" || strContains q "/"

/-- Lines 411-428 of `session_manager.py`: the math branch of
`SessionManager.solve_captcha`.  Integer division is Python `//`, which on
the non-negative extracted integers is `Nat` division. -/
def solveMath (question : String) : Option String :=
  match extractInts question with
  | a :: b :: _ =>
    if plusCond question then
      some (Nat.repr (a + b))
    else if minusCond question then
      some (Int.repr ((a : Int) - (b : Int)))
    else if timesCond question then
      some (Nat.repr (a * b))
    else if divCond question then
      if b ≠ 0 then some (Nat.repr (a / b)) else none
    else none
  | _ => none

/-- Path of the image file saved by `SessionManager.solve_captcha`
(lines 435-439): `<config_dir>/captchas/captcha_<int(time.time())>.png`. -/
def smCaptchaPath (now : Nat) : String :=
  "~/.turboX/captchas/captcha_" ++ Nat.repr now ++ ".png"

/-- Path of the image file saved by `SocketBridge.solve_captcha`
(line 538): `<data_dir>/captcha_<int(time.time())>.png`. -/
def sbCaptchaPath (now : Nat) : String :=
  "~/.turboX/data/captcha_" ++ Nat.repr now ++ ".png"

/-- `SessionManager._call_captcha_service` (lines 485-493): the external
service is not configured and always returns `None`. -/
def callCaptchaService (_imagePath : String) : Option String := none

/-- Lines 408-453, the "Try to solve" step of `SessionManager.solve_captcha`
after the cache check: the computed solution together with the image files
written.  A base64 decoding error is caught (line 452) and yields no
solution; it occurs before the file write, so nothing is written. -/
def solveFresh (d : CaptchaData) (autoSolve : Bool) (now : Nat) :
    Option String × List (String × List Nat) :=
  if d.ctype = "math" ∧ d.question ≠ "" then
    (solveMath d.question, [])
  else if d.ctype = "image" ∧ d.image ≠ "" ∧ autoSolve = true then
    match b64decode d.image with
    | some bytes =>
      let p := smCaptchaPath now
      match callCaptchaService p with
      | some s => (some s, [(p, bytes)])
      | none => (some ("MANUAL:" ++ p), [(p, bytes)])
    | none => (none, [])
  else (none, [])

/-- Result of one `SessionManager.solve_captcha` call: the returned value,
the captcha cache afterwards, and the image files written. -/
structure SolveOut where
  result : Option String
  cache : Dict CacheEntry
  writes : List (String × List Nat)

/-- `SessionManager.solve_captcha` (lines 387-483).  The mirror `INSERT OR
REPLACE INTO captcha_solutions` (lines 462-481) duplicates the in-memory
cache store into the database and is touched by no claim, so it is not
modelled separately. -/
def smSolveCaptcha (cache : Dict CacheEntry) (d : CaptchaData) (autoSolve : Bool)
    (now : Nat) : SolveOut :=
  match captchaCacheKey d with
  | some k =>
    match cacheFreshLookup cache k now with
    | some sol => ⟨some sol, cache, []⟩
    | none =>
      match solveFresh d autoSolve now with
      | (some s, w) => ⟨some s, setKey k ⟨s, now⟩ cache, w⟩
      | (none, w) => ⟨none, cache, w⟩
  | none =>
    let r := solveFresh d autoSolve now
    ⟨r.1, cache, r.2⟩

/-- `SocketBridge.solve_captcha` (lines 525-567): returns the solution
string (never `None`; the fallback is the literal
`"CAPTCHA_SOLUTION_NOT_AVAILABLE"`) and the image files written.  The math
branch requires the question to contain `'What is'` or `'Calculate'`,
recognizes only `'+'`, `'-'`, `'×'`/`'*'` (no division), and a base64 error
is swallowed by the bare `except`. -/
def sbSolveCaptcha (now : Nat) (d : CaptchaData) : String × List (String × List Nat) :=
  if d.ctype = "image" then
    if d.image ≠ "" then
      match b64decode d.image with
      | some bytes =>
        let p := sbCaptchaPath now
        ("MANUAL_SOLVE_REQUIRED:" ++ p, [(p, bytes)])
      | none => ("CAPTCHA_SOLUTION_NOT_AVAILABLE", [])
    else ("CAPTCHA_SOLUTION_NOT_AVAILABLE", [])
  else if d.ctype = "math" then
    if strContains d.question "What is" || strContains d.question "Calculate" then
      match extractInts d.question with
      | a :: b :: _ =>
        if strContains d.question "+" then (Nat.repr (a + b), [])
        else if strContains d.question "-" then (Int.repr ((a : Int) - (b : Int)), [])
        else if strContains d.question "×" || strContains d.question "*" then
          (Nat.repr (a * b), [])
        else ("CAPTCHA_SOLUTION_NOT_AVAILABLE", [])
      | _ => ("CAPTCHA_SOLUTION_NOT_AVAILABLE", [])
    else ("CAPTCHA_SOLUTION_NOT_AVAILABLE", [])
  else ("CAPTCHA_SOLUTION_NOT_AVAILABLE", [])

/-! ## Background refresh sweep (`SessionManager._auto_refresh_sessions`) -/

/-- A row of the `sessions` table, restricted to the columns the sweep
reads.  `expires_at` stores `datetime.isoformat()` text whose SQL string
comparison agrees with chronological order; it is modelled as seconds. -/
structure SessionRow where
  sid : String
  expiresAt : Nat
  isActive : Bool

/-- The `SELECT id FROM sessions WHERE expires_at < ? AND is_active = 1`
of lines 552-555, with `?` bound to `now + 1 hour`. -/
def expiringSelect (db : List SessionRow) (now : Nat) : List SessionRow :=
  db.filter (fun r => decide (r.expiresAt < now + 3600) && r.isActive)

/-- One iteration of the loop body of `_auto_refresh_sessions`
(lines 544-565): the selected session ids are printed; the refresh call is
commented out, so the database rows and the in-memory session cache (of
arbitrary type `α`) pass through unchanged. -/
def sweepIteration {α : Type} (db : List SessionRow) (cache : α) (now : Nat) :
    List SessionRow × α × List String :=
  (db, cache, (expiringSelect db now).map (fun r => r.sid))

/-! ## `SessionManager.update_session` / `get_session` -/

/-- State of a `SessionManager` as far as `update_session` sees it: the
`active_sessions` cache and the `sessions` table keyed by `id`.  The JSON
text columns (`cookies`, `tokens`, ...) are modelled as the structured
values they serialize/parse to. -/
structure SMState where
  activeSessions : Dict (Dict Json)
  dbSessions : Dict (Dict Json)

/-- `SessionManager.get_session` (lines 174-202): cache first, else load the
database row, adding it to the cache on success. -/
def getSession (st : SMState) (sid : String) : Option (Dict Json) × SMState :=
  match dictGet st.activeSessions sid with
  | some s => (some s, st)
  | none =>
    match dictGet st.dbSessions sid with
    | some row => (some row, { st with activeSessions := setKey sid row st.activeSessions })
    | none => (none, st)

/-- The write-back of `update_session` (lines 142-170): the cache entry (when
present) gets `updates` then `last_used = now`; the `UPDATE ... WHERE id`
touches the row with this id when it exists and no row otherwise.  A
`last_used` key inside `updates` is overwritten by the timestamp in both
stores (the SQL emits two `last_used = ?` clauses; last one wins). -/
def applyUpdates (st : SMState) (sid : String) (updates : Dict Json) (now : String) :
    SMState :=
  let cache' :=
    match dictGet st.activeSessions sid with
    | some sess =>
      setKey sid (setKey "last_used" (Json.str now) (pyDictUpdate sess updates))
        st.activeSessions
    | none => st.activeSessions
  let db' :=
    match dictGet st.dbSessions sid with
    | some row =>
      setKey sid (setKey "last_used" (Json.str now) (pyDictUpdate row updates))
        st.dbSessions
    | none => st.dbSessions
  ⟨cache', db'⟩

/-- `SessionManager.update_session` (lines 133-172). -/
def updateSession (st : SMState) (sid : String) (updates : Dict Json) (now : String) :
    Bool × SMState :=
  if containsKey st.activeSessions sid then
    (true, applyUpdates st sid updates now)
  else
    match getSession st sid with
    | (none, st') => (false, st')
    | (some _, st') => (true, applyUpdates st' sid updates now)

/-! ## `AutomationController._load_config` -/

/-- The built-in `default_config` literal (lines 52-68). -/
def defaultConfigEntries : List (String × Json) :=
  [("auto_launch", Json.obj
      [("api_tester", Json.bool true),
       ("sms_panel", Json.bool true),
       ("on_browser_connect", Json.bool true)]),
   ("automation_rules", Json.obj
      [("auto_captcha", Json.bool true),
       ("auto_session", Json.bool true),
       ("auto_data_export", Json.bool false),
       ("auto_refresh", Json.num 300)]),
   ("browser_integration", Json.obj
      [("port", Json.num 8765),
       ("auto_connect", Json.bool true)])]

/-- The default configuration object. -/
def defaultConfig : Json := Json.obj defaultConfigEntries

/-- One step of the merge loop (lines 77-78): `if key not in config:
config[key] = value`. -/
def mergeStep (c : List (String × Json)) (kv : String × Json) : List (String × Json) :=
  if containsKey c kv.1 then c else setKey kv.1 kv.2 c

/-- Lines 76-78: `for key, value in default_config.items(): if key not in
config: config[key] = value`. -/
def mergeDefaults (cfg : List (String × Json)) : List (String × Json) :=
  defaultConfigEntries.foldl mergeStep cfg

/-- The three observable states of the automation config file. -/
inductive ConfigFile where
  | absent
  | unreadable
  | parsed (j : Json)

/-- `AutomationController._load_config` (lines 50-86).  `absent` is
`os.path.exists` false; `unreadable` is an `open`/`json.load` exception,
caught at line 84.  When the file parses to a non-object, the merge loop
raises on assignment and the handler returns the defaults (the unusual
sequence values on which Python's `in`/`[]=` happen to succeed for all three
default keys are touched by no claim and are not distinguished here). -/
def loadConfig : ConfigFile → Json
  | ConfigFile.absent => defaultConfig
  | ConfigFile.unreadable => defaultConfig
  | ConfigFile.parsed (Json.obj entries) => Json.obj (mergeDefaults entries)
  | ConfigFile.parsed _ => defaultConfig

/-! ## Bridge HTTP routing (`BridgeHandler.do_GET` / `do_POST`)

The handlers are modelled down to where they can raise: an `Option Unit`
handler result of `none` means an exception escapes to `do_POST`'s `except`
(status 500).  Requests are given by their already-URL-parsed path and, for
POST, the result of `json.loads` on the body (`none` when decoding or
parsing raised). -/

/-- Python truthiness of a JSON value. -/
def jsonTruthy : Json → Bool
  | Json.null => false
  | Json.bool b => b
  | Json.num n => decide (n ≠ 0)
  | Json.str s => decide (s ≠ "")
  | Json.arr l => !l.isEmpty
  | Json.obj l => !l.isEmpty

/-- Python `len(...)`; `none` models `TypeError`. -/
def jsonLen : Json → Option Nat
  | Json.str s => some s.length
  | Json.arr l => some l.length
  | Json.obj l => some l.length
  | _ => none

/-- Python iteration over a JSON value: arrays yield elements, strings yield
one-character strings, objects yield their keys; `none` models `TypeError`. -/
def jsonIter : Json → Option (List Json)
  | Json.arr l => some l
  | Json.str s => some (s.data.map (fun c => Json.str (String.mk [c])))
  | Json.obj l => some (l.map (fun kv => Json.str kv.1))
  | _ => none

/-- `req.get(name, '')` followed by a string method: `none` models the
`AttributeError` on a non-string field. -/
def getStrField (req : List (String × Json)) (name : String) : Option String :=
  match dictGet req name with
  | none => some ""
  | some (Json.str s) => some s
  | some _ => none

/-- `login_indicators` of `SocketBridge._is_login_request` (line 423). -/
def loginIndicators : List String := ["login", "signin", "auth", "authenticate", "password"]

/-- Credential fields checked in the request body (line 431). -/
def credentialFields : List String := ["password", "passwd", "pwd", "username", "email"]

/-- `SocketBridge._is_login_request` (lines 418-434); `none` models an
uncaught exception (`.get` on a non-dict, a string method on a non-string).
The body is only read when the URL check fails (`any` short-circuits the
return), but `method` is always computed. -/
def isLoginRequest (req : Json) : Option Bool :=
  match req with
  | Json.obj entries => do
    let url ← getStrField entries "url"
    let urlL := lowerStr url
    let _method ← getStrField entries "method"
    if loginIndicators.any (fun i => strContains urlL i) then
      some true
    else do
      let body ← getStrField entries "requestBody"
      some (credentialFields.any (fun f => strContains (lowerStr body) f))
  | _ => none

/-- One iteration of `_process_captured_requests` (lines 346-357):
`_save_captured_request`, `_extract_tokens` and `_process_login_request`
catch their own exceptions; only `_is_login_request` can raise. -/
def processOneRequest (req : Json) : Option Unit :=
  (isLoginRequest req).map (fun _ => ())

/-- The `for req in requests` loop of `_process_captured_requests`
(lines 348-357): stop at the first uncaught exception. -/
def processAll : List Json → Option Unit
  | [] => some ()
  | r :: rest => do
    let _ ← processOneRequest r
    processAll rest

/-- `SocketBridge.process_browser_data` (lines 504-515). -/
def processBrowserData (data : List (String × Json)) : Option Unit := do
  let requests := (dictGet data "requests").getD (Json.arr [])
  if jsonTruthy requests then do
    let elems ← jsonIter requests
    let _ ← processAll elems
    pure ()
  else pure ()

/-- The `/capture` branch of `do_POST` (lines 110-120): process the data,
then build the response, whose `count` is `len(data.get('requests', []))`. -/
def captureHandler (data : List (String × Json)) : Option Unit := do
  let _ ← processBrowserData data
  let _ ← jsonLen ((dictGet data "requests").getD (Json.arr []))
  pure ()

/-- Whether a JSON value is usable as a Python dict key (hashable). -/
def jsonHashable : Json → Bool
  | Json.arr _ => false
  | Json.obj _ => false
  | _ => true

/-- The `/session` branch (lines 122-132): a falsy `session_id` skips the
update; an unhashable one raises in `SocketBridge.update_session`. -/
def sessionHandler (data : List (String × Json)) : Option Unit :=
  match dictGet data "session_id" with
  | none => some ()
  | some sid =>
    if jsonTruthy sid then (if jsonHashable sid then some () else none)
    else some ()

/-- The `/captcha` branch (lines 134-143): `SocketBridge.solve_captcha`
raises only when `captcha_data` is not a dict (including the `None` from a
missing field); with a dict it always returns a string. -/
def captchaHandler (data : List (String × Json)) : Option Unit :=
  match dictGet data "captcha" with
  | some (Json.obj _) => some ()
  | _ => none

/-- Python `path.startswith(prefix)`. -/
def strStartsWith (s pre : String) : Bool :=
  pre.data.isPrefixOf s.data

/-- The status line and presence of a JSON body in a bridge response. -/
structure HttpResponse where
  status : Nat
  hasJsonBody : Bool

/-- `BridgeHandler.do_GET` (lines 59-100), on the URL-parsed path.
`/status` and `/data` serialize bridge state; `/launch/<tool>` always
answers 200 with `{'success': ..., 'tool': ...}` (`launch_tool` catches its
own exceptions, and the `split('/')[2]` cannot fail on a path with the
`/launch/` prefix). -/
def doGET (path : String) : HttpResponse :=
  if path = "/status" then ⟨200, true⟩
  else if path = "/data" then ⟨200, true⟩
  else if strStartsWith path "/launch/" then ⟨200, true⟩
  else ⟨404, false⟩

/-- `BridgeHandler.do_POST` (lines 102-152): the body is decoded and parsed
before any dispatch, so an unparsable body answers 500 for every path; a
handler exception is caught by the same `except` (500); unknown paths with a
parsed body answer 404. -/
def doPOST (path : String) (body : Option Json) : HttpResponse :=
  match body with
  | none => ⟨500, false⟩
  | some data =>
    let entries? : Option (List (String × Json)) :=
      match data with
      | Json.obj l => some l
      | _ => none
    if path = "/capture" then
      match entries? with
      | some l =>
        match captureHandler l with
        | some _ => ⟨200, true⟩
        | none => ⟨500, false⟩
      | none => ⟨500, false⟩
    else if path = "/session" then
      match entries? with
      | some l =>
        match sessionHandler l with
        | some _ => ⟨200, true⟩
        | none => ⟨500, false⟩
      | none => ⟨500, false⟩
    else if path = "/captcha" then
      match entries? with
      | some l =>
        match captchaHandler l with
        | some _ => ⟨200, true⟩
        | none => ⟨500, false⟩
      | none => ⟨500, false⟩
    else ⟨404, false⟩

/-- Whether `req.get(name, '')` followed by a string method succeeds: the
field is absent (defaulting to `''`) or holds a string. -/
def strFieldOk (e : List (String × Json)) (name : String) : Bool :=
  match dictGet e name with
  | none => true
  | some (Json.str _) => true
  | some _ => false

/-- Well-formedness of one captured request for
`_process_captured_requests`: a JSON object whose `url`, `method` and
`requestBody` fields, when present, are strings (otherwise
`_is_login_request` raises and the POST answers 500). -/
def wellFormedRequest (r : Json) : Bool :=
  match r with
  | Json.obj e => strFieldOk e "url" && strFieldOk e "method" && strFieldOk e "requestBody"
  | _ => false

/-- Well-formedness of a `/capture` body: its `requests` field is absent or
an array of well-formed requests. -/
def wellFormedCapture (l : List (String × Json)) : Bool :=
  match dictGet l "requests" with
  | none => true
  | some (Json.arr rs) => rs.all wellFormedRequest
  | some _ => false

/-- Well-formedness of a `/session` body: a present, truthy `session_id`
must be hashable. -/
def wellFormedSession (l : List (String × Json)) : Bool :=
  match dictGet l "session_id" with
  | none => true
  | some sid => !jsonTruthy sid || jsonHashable sid

/-! ## Helper lemmas -/

theorem dictGet_setKey {α : Type} (d : Dict α) (k k' : String) (v : α) :
    dictGet (setKey k v d) k' = if k' = k then some v else dictGet d k' := by
  induction d with
  | nil => simp [setKey, dictGet]
  | cons hd tl ih =>
    obtain ⟨k0, v0⟩ := hd
    by_cases hk : k = k0
    · subst hk
      by_cases hk' : k' = k <;> simp [setKey, dictGet, hk']
    · by_cases hk' : k' = k0
      · subst hk'
        have hne : ¬ (k' = k) := fun h => hk h.symm
        simp [setKey, dictGet, hk, hne]
      · simp [setKey, dictGet, hk, hk', ih]

theorem containsKey_setKey {α : Type} (d : Dict α) (k k' : String) (v : α) :
    containsKey (setKey k v d) k' = (decide (k' = k) || containsKey d k') := by
  induction d with
  | nil => simp [setKey, containsKey]
  | cons hd tl ih =>
    obtain ⟨k0, v0⟩ := hd
    by_cases hk : k = k0
    · subst hk
      simp [setKey, containsKey]
    · simp [setKey, containsKey, hk, ih]
      by_cases h1 : k' = k0 <;> by_cases h2 : k' = k <;> simp [h1, h2]

theorem dictGet_pyDictUpdate {α : Type} (d new : Dict α) (k : String) :
    dictGet (pyDictUpdate d new) k =
      match lastLookup new k with
      | some v => some v
      | none => dictGet d k := by
  induction new generalizing d with
  | nil => simp [pyDictUpdate, lastLookup]
  | cons hd tl ih =>
    obtain ⟨k0, v0⟩ := hd
    show dictGet (pyDictUpdate (setKey k0 v0 d) tl) k = _
    rw [ih]
    cases h : lastLookup tl k with
    | some v => simp [lastLookup, h]
    | none =>
      simp only [lastLookup, h, dictGet_setKey]
      by_cases hk : k = k0 <;> simp [hk]

theorem containsKey_eq_isSome {α : Type} (d : Dict α) (k : String) :
    containsKey d k = (dictGet d k).isSome := by
  induction d with
  | nil => rfl
  | cons hd tl ih =>
    obtain ⟨k0, v0⟩ := hd
    by_cases hk : k = k0 <;> simp [containsKey, dictGet, hk, ih]

theorem containsKey_keepFold {α : Type} (p : String × α → Bool)
    (l : List (String × α)) (k : String) :
    containsKey (keepFold p l) k = l.any (fun kv => p kv && decide (k = kv.1)) := by
  suffices h : ∀ init : Dict α,
      containsKey (l.foldl (fun d kv => if p kv then setKey kv.1 kv.2 d else d) init) k
        = (containsKey init k || l.any (fun kv => p kv && decide (k = kv.1))) by
    simpa [keepFold, containsKey] using h []
  induction l with
  | nil => intro init; simp [containsKey]
  | cons kv tl ih =>
    intro init
    simp only [List.foldl_cons, List.any_cons, ih]
    by_cases hp : p kv
    · simp [hp, containsKey_setKey]
      by_cases hk : k = kv.1 <;> simp [hk, Bool.or_comm, Bool.or_assoc, Bool.or_left_comm]
    · simp [hp]

theorem containsKey_keepFold_byKey (kws : List String) (l : List (String × String))
    (k : String) :
    (∀ v, (k, v) ∈ l →
      containsKey (keepFold (fun kv => keyMatches kws kv.1) l) k = keyMatches kws k) ∧
    (containsKey (keepFold (fun kv => keyMatches kws kv.1) l) k = true →
      ∃ v, (k, v) ∈ l ∧ keyMatches kws k = true) := by
  constructor
  · intro v hv
    rw [containsKey_keepFold]
    cases h : keyMatches kws k with
    | true =>
      rw [List.any_eq_true]
      exact ⟨(k, v), hv, by simp [h]⟩
    | false =>
      rw [List.any_eq_false]
      intro kv _
      by_cases hk : k = kv.1
      · simp [← hk, h]
      · simp [hk]
  · intro h
    rw [containsKey_keepFold, List.any_eq_true] at h
    obtain ⟨kv, hmem, hp⟩ := h
    rw [Bool.and_eq_true, decide_eq_true_eq] at hp
    obtain ⟨hkw, hk⟩ := hp
    subst hk
    exact ⟨kv.2, hmem, hkw⟩

end TurboX

namespace TurboX

/-! ## Claims -/

/-- C1 counterexample.  The claim's keyword list (`session`, `token`,
`auth`, `jwt`) is complete for `SessionManager.extract_tokens_from_request`
but not for `SocketBridge._extract_tokens`, whose list also contains
`bearer`: the pair `("bearerid", "zzz")` obtained from the `Set-Cookie`
value `"bearerid=zzz; Path=/"` has a key containing none of the four listed
substrings, yet the bridge stores it. -/
theorem extract_cookie_keyword_list_counterexample :
    ("bearerid", "zzz") ∈ cookiePairs "bearerid=zzz; Path=/" ∧
    keyMatches smCookieKeywords "bearerid" = false ∧
    containsKey (sbNewCookies "bearerid=zzz; Path=/") "bearerid" = true ∧
    containsKey (smNewCookies "bearerid=zzz; Path=/") "bearerid" = false := by
  refine ⟨?_, by decide, by decide, by decide⟩
  decide

/-- C1 (amended): for every `key=value` pair obtained by splitting a
`Set-Cookie` header value on `';'` and `'='`, `SessionManager` stores the
pair if and only if the lower-cased key contains one of `session`, `token`,
`auth`, `jwt`, while `SocketBridge` stores it if and only if the lower-cased
key contains one of `session`, `token`, `auth`, `jwt`, `bearer`; and only
such pairs are ever stored. -/
theorem extract_cookie_keyword_filter (s k : String) :
    (∀ v, (k, v) ∈ cookiePairs s →
      containsKey (smNewCookies s) k = keyMatches smCookieKeywords k ∧
      containsKey (sbNewCookies s) k = keyMatches sbCookieKeywords k) ∧
    (containsKey (smNewCookies s) k = true →
      ∃ v, (k, v) ∈ cookiePairs s ∧ keyMatches smCookieKeywords k = true) ∧
    (containsKey (sbNewCookies s) k = true →
      ∃ v, (k, v) ∈ cookiePairs s ∧ keyMatches sbCookieKeywords k = true) := by
  refine ⟨?_, ?_, ?_⟩
  · intro v hv
    exact ⟨(containsKey_keepFold_byKey smCookieKeywords (cookiePairs s) k).1 v hv,
           (containsKey_keepFold_byKey sbCookieKeywords (cookiePairs s) k).1 v hv⟩
  · exact (containsKey_keepFold_byKey smCookieKeywords (cookiePairs s) k).2
  · exact (containsKey_keepFold_byKey sbCookieKeywords (cookiePairs s) k).2

/-- C1 witness: the amended theorem applied to the `Set-Cookie` value
`"sessionid=abc123; Path=/"` at key `"sessionid"`. -/
theorem extract_cookie_keyword_filter_witness :
    ("sessionid", "abc123") ∈ cookiePairs "sessionid=abc123; Path=/" ∧
    containsKey (smNewCookies "sessionid=abc123; Path=/") "sessionid" =
      keyMatches smCookieKeywords "sessionid" ∧
    containsKey (sbNewCookies "sessionid=abc123; Path=/") "sessionid" =
      keyMatches sbCookieKeywords "sessionid" := by
  have h := (extract_cookie_keyword_filter "sessionid=abc123; Path=/" "sessionid").1
    "abc123" (by decide)
  exact ⟨by decide, h.1, h.2⟩

/-- The body-token filter of either extractor keeps exactly the fields that
are strings longer than 10 characters under a matching key. -/
theorem containsKey_newBodyTokens (kws : List String) (entries : List (String × Json))
    (k : String) :
    containsKey (newBodyTokens kws entries) k = true ↔
      ∃ s : String, (k, Json.str s) ∈ entries ∧ keyMatches kws k = true ∧ s.length > 10 := by
  rw [newBodyTokens, containsKey_keepFold, List.any_eq_true]
  constructor
  · rintro ⟨⟨k0, j⟩, hmem, hp⟩
    rw [Bool.and_eq_true, decide_eq_true_eq] at hp
    obtain ⟨hkeep, hk⟩ := hp
    subst hk
    rw [keepBodyField, Bool.and_eq_true] at hkeep
    obtain ⟨hkw, hval⟩ := hkeep
    cases j with
    | str s =>
      rw [decide_eq_true_eq] at hval
      exact ⟨s, hmem, hkw, hval⟩
    | null => exact absurd hval (by simp)
    | bool b => exact absurd hval (by simp)
    | num n => exact absurd hval (by simp)
    | arr l => exact absurd hval (by simp)
    | obj l => exact absurd hval (by simp)
  · rintro ⟨s, hmem, hkw, hlen⟩
    refine ⟨(k, Json.str s), hmem, ?_⟩
    simp [keepBodyField, hkw, hlen]

/-- C5: for a captured response body parsed as a JSON object, a field is
kept as a session token if and only if its value is a string of length
strictly greater than 10 and its lower-cased key contains one of the token
keywords — `token`, `access`, `refresh`, `auth`, `bearer` for
`SessionManager.extract_tokens_from_request`, and `token`, `access`,
`refresh`, `auth` for `SocketBridge._extract_tokens`. -/
theorem body_token_filter (entries : List (String × Json)) (k : String) :
    (containsKey (newBodyTokens smBodyKeywords entries) k = true ↔
      ∃ s : String, (k, Json.str s) ∈ entries ∧
        keyMatches smBodyKeywords k = true ∧ s.length > 10) ∧
    (containsKey (newBodyTokens sbBodyKeywords entries) k = true ↔
      ∃ s : String, (k, Json.str s) ∈ entries ∧
        keyMatches sbBodyKeywords k = true ∧ s.length > 10) :=
  ⟨containsKey_newBodyTokens smBodyKeywords entries k,
   containsKey_newBodyTokens sbBodyKeywords entries k⟩

/-- C5 witness: the field `access_token = "abcdefghijklmno"` (a 15-character
string) is kept by both extractors, and the 3-character `auth = "abc"` by
neither. -/
theorem body_token_filter_witness :
    containsKey (newBodyTokens smBodyKeywords
      [("access_token", Json.str "abcdefghijklmno")]) "access_token" = true ∧
    containsKey (newBodyTokens sbBodyKeywords
      [("access_token", Json.str "abcdefghijklmno")]) "access_token" = true ∧
    containsKey (newBodyTokens smBodyKeywords [("auth", Json.str "abc")]) "auth" = false := by
  refine ⟨?_, ?_, ?_⟩
  · exact (body_token_filter [("access_token", Json.str "abcdefghijklmno")] "access_token").1.mpr
      ⟨"abcdefghijklmno", List.mem_singleton.mpr rfl, by decide, by decide⟩
  · exact (body_token_filter [("access_token", Json.str "abcdefghijklmno")] "access_token").2.mpr
      ⟨"abcdefghijklmno", List.mem_singleton.mpr rfl, by decide, by decide⟩
  · rfl

/-- C6: merging newly extracted entries into a session's stored tokens (or
cookies) mapping is `dict.update`: every key of the new set takes the new
set's (last) value, and every other key keeps its previous value. -/
theorem merge_tokens_last_write_wins (current extracted : Dict String) (k : String) :
    (∀ v, lastLookup extracted k = some v →
      dictGet (mergeNewTokens current extracted) k = some v) ∧
    (lastLookup extracted k = none →
      dictGet (mergeNewTokens current extracted) k = dictGet current k) := by
  constructor
  · intro v hv
    rw [mergeNewTokens, dictGet_pyDictUpdate, hv]
  · intro hv
    rw [mergeNewTokens, dictGet_pyDictUpdate, hv]

/-! ### Captcha-solving lemmas -/

theorem smSolveCaptcha_hit (cache : Dict CacheEntry) (d : CaptchaData) (auto : Bool)
    (now : Nat) (k : String) (sol : String)
    (hk : captchaCacheKey d = some k)
    (hlk : cacheFreshLookup cache k now = some sol) :
    smSolveCaptcha cache d auto now = ⟨some sol, cache, []⟩ := by
  simp [smSolveCaptcha, hk, hlk]

theorem smSolveCaptcha_miss (cache : Dict CacheEntry) (d : CaptchaData) (auto : Bool)
    (now : Nat) (k : String)
    (hk : captchaCacheKey d = some k)
    (hlk : cacheFreshLookup cache k now = none) :
    smSolveCaptcha cache d auto now =
      match solveFresh d auto now with
      | (some s, w) => ⟨some s, setKey k ⟨s, now⟩ cache, w⟩
      | (none, w) => ⟨none, cache, w⟩ := by
  simp [smSolveCaptcha, hk, hlk]

theorem smSolveCaptcha_nokey (cache : Dict CacheEntry) (d : CaptchaData) (auto : Bool)
    (now : Nat) (hk : captchaCacheKey d = none) :
    smSolveCaptcha cache d auto now =
      ⟨(solveFresh d auto now).1, cache, (solveFresh d auto now).2⟩ := by
  simp [smSolveCaptcha, hk]

/-- Under a cache miss (for every key the captcha has), `solve_captcha`
returns exactly what the "Try to solve" step computes. -/
theorem smSolveCaptcha_result_of_miss (cache : Dict CacheEntry) (d : CaptchaData)
    (auto : Bool) (now : Nat)
    (hmiss : ∀ k, captchaCacheKey d = some k → cacheFreshLookup cache k now = none) :
    (smSolveCaptcha cache d auto now).result = (solveFresh d auto now).1 ∧
    (smSolveCaptcha cache d auto now).writes = (solveFresh d auto now).2 := by
  cases hk : captchaCacheKey d with
  | none => rw [smSolveCaptcha_nokey cache d auto now hk]; exact ⟨rfl, rfl⟩
  | some k =>
    rw [smSolveCaptcha_miss cache d auto now k hk (hmiss k hk)]
    rcases hf : solveFresh d auto now with ⟨r, w⟩
    cases r <;> simp

/-- A captcha with an empty question and empty image produces no fresh
solution (no branch of the solver applies). -/
theorem solveFresh_empty (d : CaptchaData) (auto : Bool) (now : Nat)
    (hq : d.question = "") (hi : d.image = "") :
    solveFresh d auto now = (none, []) := by
  simp [solveFresh, hq, hi]

/-- For a `math` captcha the fresh solve is the math solver (guarded by a
non-empty question). -/
theorem solveFresh_mathtype (q img : String) (auto : Bool) (now : Nat) :
    (solveFresh ⟨"math", q, img⟩ auto now).1 = if q = "" then none else solveMath q := by
  by_cases hq : q = "" <;> simp [solveFresh, hq]

/-- C6 witness: updating `{a: "1", b: "2"}` with `{a: "9"}` overwrites `a`
and keeps `b`. -/
theorem merge_tokens_last_write_wins_witness :
    dictGet (mergeNewTokens [("a", "1"), ("b", "2")] [("a", "9")]) "a" = some "9" ∧
    dictGet (mergeNewTokens [("a", "1"), ("b", "2")] [("a", "9")]) "b" = some "2" := by
  constructor
  · exact (merge_tokens_last_write_wins [("a", "1"), ("b", "2")] [("a", "9")] "a").1
      "9" (by decide)
  · have h := (merge_tokens_last_write_wins [("a", "1"), ("b", "2")] [("a", "9")] "b").2
      (by decide)
    rw [h]
    decide

/-- C2 counterexample.  The claim's description (division included,
operators `plus`/`minus`/`times`/`divide`, result for any question with two
integers and a recognized operator) is accurate for
`SessionManager.solve_captcha` but not for `SocketBridge.solve_captcha`:
the bridge recognizes no division at all, so on the math question
`"What is 8 divide 2"` it answers its `"CAPTCHA_SOLUTION_NOT_AVAILABLE"`
fallback instead of `"4"`. -/
theorem math_captcha_counterexample :
    extractInts "What is 8 divide 2" = [8, 2] ∧
    divCond "What is 8 divide 2" = true ∧
    (sbSolveCaptcha 0 ⟨"math", "What is 8 divide 2", ""⟩).1 =
      "CAPTCHA_SOLUTION_NOT_AVAILABLE" ∧
    (sbSolveCaptcha 0 ⟨"math", "What is 8 divide 2", ""⟩).1 ≠ "4" := by
  refine ⟨by decide, by decide, by decide, by decide⟩

/-- C2 (amended): the claimed math-captcha behavior, proved for
`SessionManager.solve_captcha` (on a cache miss): with at least two
extracted integers the first recognized operator — tested in the order
plus, minus, times, divide — is applied to the first two of them and the
result returned as a decimal string; division is floor division, guarded
against a zero second operand; with no recognized operator or fewer than
two integers, no solution is computed.  (`SocketBridge.solve_captcha`
instead handles only `+`, `-`, `×`/`*`, demands `'What is'`/`'Calculate'`
in the question, and returns a fallback string rather than no solution.) -/
theorem math_captcha_solver (cache : Dict CacheEntry) (q img : String) (auto : Bool)
    (now : Nat)
    (hmiss : ∀ k, captchaCacheKey ⟨"math", q, img⟩ = some k →
      cacheFreshLookup cache k now = none) :
    ((extractInts q).length < 2 →
      (smSolveCaptcha cache ⟨"math", q, img⟩ auto now).result = none) ∧
    (∀ a b rest, extractInts q = a :: b :: rest →
      (plusCond q = true →
        (smSolveCaptcha cache ⟨"math", q, img⟩ auto now).result =
          some (Nat.repr (a + b))) ∧
      (plusCond q = false → minusCond q = true →
        (smSolveCaptcha cache ⟨"math", q, img⟩ auto now).result =
          some (Int.repr ((a : Int) - (b : Int)))) ∧
      (plusCond q = false → minusCond q = false → timesCond q = true →
        (smSolveCaptcha cache ⟨"math", q, img⟩ auto now).result =
          some (Nat.repr (a * b))) ∧
      (plusCond q = false → minusCond q = false → timesCond q = false → divCond q = true →
        (smSolveCaptcha cache ⟨"math", q, img⟩ auto now).result =
          if b = 0 then none else some (Nat.repr (a / b))) ∧
      (plusCond q = false → minusCond q = false → timesCond q = false → divCond q = false →
        (smSolveCaptcha cache ⟨"math", q, img⟩ auto now).result = none)) := by
  have hres := (smSolveCaptcha_result_of_miss cache ⟨"math", q, img⟩ auto now hmiss).1
  rw [solveFresh_mathtype] at hres
  constructor
  · intro hlen
    rw [hres]
    by_cases hq : q = ""
    · simp [hq]
    · rw [if_neg hq, solveMath]
      match hx : extractInts q with
      | [] => simp
      | [a] => simp
      | a :: b :: rest =>
        rw [hx] at hlen
        simp only [List.length_cons] at hlen
        omega
  · intro a b rest hx
    have hq : q ≠ "" := by
      intro h
      rw [h] at hx
      simp [extractInts, extractIntsAux] at hx
    rw [if_neg hq] at hres
    rw [hres, solveMath, hx]
    refine ⟨?_, ?_, ?_, ?_, ?_⟩
    · intro h1; simp [h1]
    · intro h1 h2; simp [h1, h2]
    · intro h1 h2 h3; simp [h1, h2, h3]
    · intro h1 h2 h3 h4
      simp only [h1, h2, h3, h4, Bool.false_eq_true, if_false, if_true]
      by_cases hb : b = 0 <;> simp [hb]
    · intro h1 h2 h3 h4; simp [h1, h2, h3, h4]

/-- C2 witness: on the question `"What is 9 divide 4?"` (cache empty) the
session manager answers the floor quotient `"2"`; the hypotheses of
`math_captcha_solver` are discharged at this input. -/
theorem math_captcha_solver_witness :
    extractInts "What is 9 divide 4?" = [9, 4] ∧
    plusCond "What is 9 divide 4?" = false ∧
    minusCond "What is 9 divide 4?" = false ∧
    timesCond "What is 9 divide 4?" = false ∧
    divCond "What is 9 divide 4?" = true ∧
    (smSolveCaptcha [] ⟨"math", "What is 9 divide 4?", ""⟩ true 0).result = some "2" := by
  refine ⟨by decide, by decide, by decide, by decide, by decide, ?_⟩
  have h := ((math_captcha_solver [] "What is 9 divide 4?" "" true 0
      (fun k _ => rfl)).2 9 4 [] (by decide)).2.2.2.1
    (by decide) (by decide) (by decide) (by decide)
  rw [h]
  decide

/-- C3 counterexample.  For an image captcha with decodable base64 data
(`"aGk="`, the bytes of `"hi"`), `SocketBridge.solve_captcha` writes the
image file but returns `"MANUAL_SOLVE_REQUIRED:<path>"`, not
`"MANUAL:<path>"` as the claim states for every captcha request. -/
theorem manual_image_counterexample :
    (sbSolveCaptcha 5 ⟨"image", "", "aGk="⟩).2 = [(sbCaptchaPath 5, [104, 105])] ∧
    (sbSolveCaptcha 5 ⟨"image", "", "aGk="⟩).1 ≠ "MANUAL:" ++ sbCaptchaPath 5 := by
  refine ⟨by decide, by decide⟩

/-- C3 (amended): for an image captcha with decodable base64 data, when the
external service yields no solution (it always does:
`_call_captcha_service` returns `None`), the decoded image is written to a
file and `SessionManager.solve_captcha` returns exactly `'MANUAL:'`
followed by that file's path — while `SocketBridge.solve_captcha` writes
the file and returns `'MANUAL_SOLVE_REQUIRED:'` followed by its path. -/
theorem manual_image_flagging (cache : Dict CacheEntry) (d : CaptchaData) (now : Nat)
    (bytes : List Nat)
    (hmiss : ∀ k, captchaCacheKey d = some k → cacheFreshLookup cache k now = none)
    (htype : d.ctype = "image") (himg : d.image ≠ "")
    (hdec : b64decode d.image = some bytes) :
    ((smSolveCaptcha cache d true now).result = some ("MANUAL:" ++ smCaptchaPath now) ∧
     (smSolveCaptcha cache d true now).writes = [(smCaptchaPath now, bytes)]) ∧
    sbSolveCaptcha now d =
      ("MANUAL_SOLVE_REQUIRED:" ++ sbCaptchaPath now, [(sbCaptchaPath now, bytes)]) := by
  have hfresh : solveFresh d true now =
      (some ("MANUAL:" ++ smCaptchaPath now), [(smCaptchaPath now, bytes)]) := by
    have hnotmath : ¬ (d.ctype = "math" ∧ d.question ≠ "") := by
      rintro ⟨h, -⟩
      rw [htype] at h
      exact absurd h (by decide)
    simp [solveFresh, hnotmath, htype, himg, hdec, callCaptchaService]
  have h := smSolveCaptcha_result_of_miss cache d true now hmiss
  refine ⟨⟨?_, ?_⟩, ?_⟩
  · rw [h.1, hfresh]
  · rw [h.2, hfresh]
  · simp [sbSolveCaptcha, htype, himg, hdec]

/-- C3 witness: the amended theorem applied to the concrete image captcha
`{type: "image", image: "aGk="}` at time 7 with an empty cache. -/
theorem manual_image_flagging_witness :
    b64decode "aGk=" = some [104, 105] ∧
    (smSolveCaptcha [] ⟨"image", "", "aGk="⟩ true 7).result =
      some ("MANUAL:" ++ smCaptchaPath 7) ∧
    (smSolveCaptcha [] ⟨"image", "", "aGk="⟩ true 7).writes =
      [(smCaptchaPath 7, [104, 105])] := by
  have h := manual_image_flagging [] ⟨"image", "", "aGk="⟩ 7 [104, 105]
    (fun k _ => rfl) rfl (by decide) (by decide)
  exact ⟨by decide, h.1.1, h.1.2⟩

/-- C4: (a) if a `solve_captcha` call misses the cache and computes a
solution, a second call with the same question text (or, with an empty
question, the same image payload — hence the same MD5 cache key) made
strictly less than 300 seconds later returns that same solution from the
in-memory cache; (b) a cached entry aged 300 seconds or more is never
returned by the cache lookup. -/
theorem captcha_cache_expiry :
    (∀ (cache : Dict CacheEntry) (d1 d2 : CaptchaData) (auto1 auto2 : Bool)
        (t1 t2 : Nat) (s : String),
      (∀ k, captchaCacheKey d1 = some k → cacheFreshLookup cache k t1 = none) →
      ((d1.question ≠ "" ∧ d2.question = d1.question) ∨
        (d1.question = "" ∧ d2.question = "" ∧ d2.image = d1.image)) →
      (smSolveCaptcha cache d1 auto1 t1).result = some s →
      t1 ≤ t2 → t2 - t1 < 300 →
      (smSolveCaptcha (smSolveCaptcha cache d1 auto1 t1).cache d2 auto2 t2).result =
        some s) ∧
    (∀ (cache : Dict CacheEntry) (k : String) (e : CacheEntry) (t : Nat),
      dictGet cache k = some e → (t : Int) - (e.timestamp : Int) ≥ 300 →
      cacheFreshLookup cache k t = none) := by
  constructor
  · intro cache d1 d2 auto1 auto2 t1 t2 s hmiss hsame hsol hle hlt
    -- the two calls share a cache key
    have hkey : ∃ k0, captchaCacheKey d1 = some k0 ∧ captchaCacheKey d2 = some k0 := by
      rcases hsame with ⟨hq1, hq2⟩ | ⟨hq1, hq2, himg⟩
      · exact ⟨md5hex d1.question, by simp [captchaCacheKey, hq1],
          by simp [captchaCacheKey, hq2, hq1]⟩
      · by_cases himg1 : d1.image = ""
        · exfalso
          have hk : captchaCacheKey d1 = none := by
            simp [captchaCacheKey, hq1, himg1]
          rw [smSolveCaptcha_nokey cache d1 auto1 t1 hk,
            solveFresh_empty d1 auto1 t1 hq1 himg1] at hsol
          exact Option.noConfusion hsol
        · exact ⟨md5hex d1.image, by simp [captchaCacheKey, hq1, himg1],
            by simp [captchaCacheKey, hq2, himg, himg1]⟩
    obtain ⟨k0, hk1, hk2⟩ := hkey
    have hm := smSolveCaptcha_miss cache d1 auto1 t1 k0 hk1 (hmiss k0 hk1)
    rcases hf : solveFresh d1 auto1 t1 with ⟨r, w⟩
    rw [hf] at hm
    cases r with
    | none => rw [hm] at hsol; exact absurd hsol (by simp)
    | some s0 =>
      rw [hm] at hsol ⊢
      have hs : s0 = s := by simpa using hsol
      subst hs
      have hlk2 : cacheFreshLookup (setKey k0 ⟨s0, t1⟩ cache) k0 t2 = some s0 := by
        have hc : (t2 : Int) - (t1 : Int) < 300 := by omega
        simp [cacheFreshLookup, dictGet_setKey, hc]
      rw [smSolveCaptcha_hit (setKey k0 ⟨s0, t1⟩ cache) d2 auto2 t2 k0 s0 hk2 hlk2]
  · intro cache k e t he hage
    have hc : ¬ ((t : Int) - (e.timestamp : Int) < 300) := by omega
    simp [cacheFreshLookup, he, hc]

/-- C4 witness: solving `"2 plus 3"` at time 0 caches `"5"`; an identical
call at time 299 returns the cached `"5"`, while a cache entry stamped 0 is
not returned at time 400. -/
theorem captcha_cache_expiry_witness :
    (smSolveCaptcha [] ⟨"math", "2 plus 3", ""⟩ true 0).result = some "5" ∧
    (smSolveCaptcha (smSolveCaptcha [] ⟨"math", "2 plus 3", ""⟩ true 0).cache
        ⟨"math", "2 plus 3", ""⟩ true 299).result = some "5" ∧
    cacheFreshLookup [("2 plus 3", ⟨"5", 0⟩)] "2 plus 3" 400 = none := by
  refine ⟨by decide, ?_, ?_⟩
  · exact (captcha_cache_expiry).1 [] ⟨"math", "2 plus 3", ""⟩ ⟨"math", "2 plus 3", ""⟩
      true true 0 299 "5" (fun k _ => rfl) (Or.inl ⟨by decide, rfl⟩) (by decide)
      (by decide) (by decide)
  · exact (captcha_cache_expiry).2 [("2 plus 3", ⟨"5", 0⟩)] "2 plus 3" ⟨"5", 0⟩ 400
      rfl (by decide)

/-- C7 counterexample.  The sweep's `WHERE expires_at < now + 1 hour` also
selects sessions that are *already expired*, not only those expiring within
the next hour: the active session `s1` with `expires_at = 0` is selected
and logged at `now = 10000` although its expiry does not lie in the coming
hour (`10000 ≤ 0` fails). -/
theorem sweep_select_counterexample :
    (sweepIteration [⟨"s1", 0, true⟩] (0 : Nat) 10000).2.2 = ["s1"] ∧
    ¬ (10000 ≤ (0 : Nat)) := by
  exact ⟨by decide, by decide⟩

/-- C7 (amended): one iteration of the background refresh sweep selects the
active sessions whose `expires_at` is earlier than one hour from now
(including already-expired ones) and only logs their ids: the session rows
and the in-memory cache pass through unchanged — no session is refreshed,
deactivated or deleted. -/
theorem sweep_logs_only {α : Type} (db : List SessionRow) (cache : α) (now : Nat) :
    (sweepIteration db cache now).1 = db ∧
    (sweepIteration db cache now).2.1 = cache ∧
    (∀ i, i ∈ (sweepIteration db cache now).2.2 ↔
      ∃ r, r ∈ db ∧ r.sid = i ∧ r.isActive = true ∧ r.expiresAt < now + 3600) := by
  refine ⟨rfl, rfl, ?_⟩
  intro i
  simp only [sweepIteration, expiringSelect, List.mem_map, List.mem_filter,
    Bool.and_eq_true, decide_eq_true_eq]
  constructor
  · rintro ⟨r, ⟨hmem, hexp, hact⟩, hsid⟩
    exact ⟨r, hmem, hsid, hact, hexp⟩
  · rintro ⟨r, hmem, hsid, hact, hexp⟩
    exact ⟨r, ⟨hmem, hexp, hact⟩, hsid⟩

/-- C7 witness: a database with one active session expiring at 100 is left
unchanged by a sweep at time 10 and its id `s2` is logged
(`100 < 10 + 3600`). -/
theorem sweep_logs_only_witness :
    (sweepIteration [⟨"s2", 100, true⟩] (0 : Nat) 10).1 = [⟨"s2", 100, true⟩] ∧
    (sweepIteration [⟨"s2", 100, true⟩] (0 : Nat) 10).2.1 = 0 ∧
    "s2" ∈ (sweepIteration [⟨"s2", 100, true⟩] (0 : Nat) 10).2.2 := by
  refine ⟨(sweep_logs_only _ _ _).1, (sweep_logs_only _ _ _).2.1, ?_⟩
  exact ((sweep_logs_only [⟨"s2", 100, true⟩] (0 : Nat) 10).2.2 "s2").mpr
    ⟨⟨"s2", 100, true⟩, by simp, rfl, rfl, by decide⟩

/-! ### Config-merge lemmas -/

theorem mergeFold_preserves (defs : List (String × Json)) (c : Dict Json) (k : String)
    (hc : containsKey c k = true) :
    dictGet (defs.foldl mergeStep c) k = dictGet c k := by
  induction defs generalizing c with
  | nil => rfl
  | cons kv tl ih =>
    simp only [List.foldl_cons, mergeStep]
    by_cases h : containsKey c kv.1 = true
    · rw [if_pos h]
      exact ih c hc
    · rw [if_neg (by simp [h])]
      have hk : k ≠ kv.1 := by
        intro h'
        rw [← h'] at h
        exact h hc
      have hc' : containsKey (setKey kv.1 kv.2 c) k = true := by
        rw [containsKey_setKey]
        simp [hc]
      rw [ih _ hc', dictGet_setKey, if_neg hk]

theorem mergeFold_fills (k : String) (v : Json) :
    ∀ (defs : List (String × Json)) (c : Dict Json),
      (defs.map Prod.fst).Nodup → (k, v) ∈ defs → containsKey c k = false →
      dictGet (defs.foldl mergeStep c) k = some v := by
  intro defs
  induction defs with
  | nil => intro c _ hmem _; cases hmem
  | cons kv tl ih =>
    intro c hnd hmem hc
    simp only [List.foldl_cons, mergeStep]
    rcases List.mem_cons.mp hmem with heq | htl
    · rw [← heq]
      rw [if_neg (by simp [hc])]
      have hc' : containsKey (setKey k v c) k = true := by
        rw [containsKey_setKey]; simp
      rw [mergeFold_preserves tl _ k hc', dictGet_setKey, if_pos rfl]
    · have hkk : k ≠ kv.1 := by
        have hmap : k ∈ tl.map Prod.fst := List.mem_map.mpr ⟨(k, v), htl, rfl⟩
        intro h
        rw [List.map_cons, List.nodup_cons] at hnd
        exact hnd.1 (h ▸ hmap)
      have hnd' : (tl.map Prod.fst).Nodup := by
        rw [List.map_cons, List.nodup_cons] at hnd
        exact hnd.2
      by_cases h : containsKey c kv.1 = true
      · rw [if_pos h]
        exact ih c hnd' htl hc
      · rw [if_neg (by simp [h])]
        have hc' : containsKey (setKey kv.1 kv.2 c) k = false := by
          rw [containsKey_setKey]
          simp [hc, hkk]
        exact ih _ hnd' htl hc'

/-- C9: `_load_config` returns the built-in defaults when the config file
is absent, unreadable or malformed (every failure is caught); when the file
parses as a JSON object, keys present in the file keep the file's values
and the top-level default keys missing from the file are filled in from the
defaults. -/
theorem load_config_defaults (entries : List (String × Json)) :
    loadConfig ConfigFile.absent = defaultConfig ∧
    loadConfig ConfigFile.unreadable = defaultConfig ∧
    loadConfig (ConfigFile.parsed (Json.obj entries)) = Json.obj (mergeDefaults entries) ∧
    (∀ k, containsKey entries k = true →
      dictGet (mergeDefaults entries) k = dictGet entries k) ∧
    (∀ k v, (k, v) ∈ defaultConfigEntries → containsKey entries k = false →
      dictGet (mergeDefaults entries) k = some v) := by
  refine ⟨rfl, rfl, rfl, ?_, ?_⟩
  · intro k hk
    exact mergeFold_preserves defaultConfigEntries entries k hk
  · intro k v hmem hc
    have hnd : (defaultConfigEntries.map Prod.fst).Nodup := by
      simp [defaultConfigEntries]
    exact mergeFold_fills k v defaultConfigEntries entries hnd hmem hc

/-- C9 witness: a config file holding only `auto_launch: false` keeps that
value after the merge, and the missing `browser_integration` section is
filled in from the defaults. -/
theorem load_config_defaults_witness :
    containsKey [("auto_launch", Json.bool false)] "auto_launch" = true ∧
    dictGet (mergeDefaults [("auto_launch", Json.bool false)]) "auto_launch" =
      some (Json.bool false) ∧
    containsKey [("auto_launch", Json.bool false)] "browser_integration" = false ∧
    dictGet (mergeDefaults [("auto_launch", Json.bool false)]) "browser_integration" =
      some (Json.obj [("port", Json.num 8765), ("auto_connect", Json.bool true)]) := by
  refine ⟨by decide, ?_, by decide, ?_⟩
  · rw [(load_config_defaults [("auto_launch", Json.bool false)]).2.2.2.1
      "auto_launch" (by decide)]
    rfl
  · exact (load_config_defaults [("auto_launch", Json.bool false)]).2.2.2.2
      "browser_integration"
      (Json.obj [("port", Json.num 8765), ("auto_connect", Json.bool true)])
      (by simp [defaultConfigEntries]) (by decide)

/-! ### `update_session` lemmas -/

theorem applyUpdates_cache (st : SMState) (sid : String) (updates : Dict Json)
    (now : String) (sess0 : Dict Json)
    (h : dictGet st.activeSessions sid = some sess0) :
    dictGet (applyUpdates st sid updates now).activeSessions sid =
      some (setKey "last_used" (Json.str now) (pyDictUpdate sess0 updates)) := by
  simp [applyUpdates, h, dictGet_setKey]

theorem applyUpdates_db (st : SMState) (sid : String) (updates : Dict Json)
    (now : String) (row : Dict Json)
    (h : dictGet st.dbSessions sid = some row) :
    dictGet (applyUpdates st sid updates now).dbSessions sid =
      some (setKey "last_used" (Json.str now) (pyDictUpdate row updates)) := by
  simp [applyUpdates, h, dictGet_setKey]

theorem updated_record_fields (sess0 updates : Dict Json) (now : String) :
    dictGet (setKey "last_used" (Json.str now) (pyDictUpdate sess0 updates))
      "last_used" = some (Json.str now) ∧
    ∀ k v, k ≠ "last_used" → lastLookup updates k = some v →
      dictGet (setKey "last_used" (Json.str now) (pyDictUpdate sess0 updates)) k =
        some v := by
  constructor
  · rw [dictGet_setKey, if_pos rfl]
  · intro k v hk hv
    rw [dictGet_setKey, if_neg hk, dictGet_pyDictUpdate, hv]

/-- C10: `update_session` on a session id found in neither the cache nor
the database returns `False` and leaves the whole state unchanged (no row
is inserted or modified); on an existing session it returns `True`, the
cached session gets the given fields and `last_used = now`, and an existing
database row is rewritten the same way. -/
theorem update_session_spec (st : SMState) (sid : String) (updates : Dict Json)
    (now : String) :
    (containsKey st.activeSessions sid = false → dictGet st.dbSessions sid = none →
      updateSession st sid updates now = (false, st)) ∧
    (containsKey st.activeSessions sid = true ∨ (dictGet st.dbSessions sid).isSome →
      (updateSession st sid updates now).1 = true ∧
      (∃ sess, dictGet (updateSession st sid updates now).2.activeSessions sid = some sess ∧
        dictGet sess "last_used" = some (Json.str now) ∧
        ∀ k v, k ≠ "last_used" → lastLookup updates k = some v →
          dictGet sess k = some v) ∧
      (∀ row, dictGet st.dbSessions sid = some row →
        dictGet (updateSession st sid updates now).2.dbSessions sid =
          some (setKey "last_used" (Json.str now) (pyDictUpdate row updates)))) := by
  constructor
  · intro hc hdb
    have hga : dictGet st.activeSessions sid = none := by
      have h := containsKey_eq_isSome st.activeSessions sid
      rw [hc] at h
      exact Option.not_isSome_iff_eq_none.mp (by simp [← h])
    simp [updateSession, hc, getSession, hga, hdb]
  · intro hex
    by_cases hc : containsKey st.activeSessions sid = true
    · obtain ⟨sess0, hsess0⟩ := Option.isSome_iff_exists.mp
        (by rw [← containsKey_eq_isSome]; exact hc)
      have hstep : updateSession st sid updates now =
          (true, applyUpdates st sid updates now) := by
        simp [updateSession, hc]
      refine ⟨by rw [hstep], ⟨_, ?_, (updated_record_fields sess0 updates now).1,
        (updated_record_fields sess0 updates now).2⟩, ?_⟩
      · rw [hstep]
        exact applyUpdates_cache st sid updates now sess0 hsess0
      · intro row hrow
        rw [hstep]
        exact applyUpdates_db st sid updates now row hrow
    · have hcf : containsKey st.activeSessions sid = false := by
        cases hb : containsKey st.activeSessions sid
        · rfl
        · exact absurd hb hc
      have hga : dictGet st.activeSessions sid = none := by
        have h := containsKey_eq_isSome st.activeSessions sid
        rw [hcf] at h
        exact Option.not_isSome_iff_eq_none.mp (by simp [← h])
      obtain ⟨row0, hrow0⟩ := Option.isSome_iff_exists.mp (by
        rcases hex with ht | hdb
        · exact absurd ht hc
        · exact hdb)
      have hget : getSession st sid =
          (some row0, { st with activeSessions := setKey sid row0 st.activeSessions }) := by
        simp [getSession, hga, hrow0]
      have hstep : updateSession st sid updates now =
          (true, applyUpdates { st with activeSessions := setKey sid row0 st.activeSessions }
            sid updates now) := by
        simp [updateSession, hc, hget]
      have hcache' : dictGet (setKey sid row0 st.activeSessions) sid = some row0 := by
        rw [dictGet_setKey, if_pos rfl]
      refine ⟨by rw [hstep], ⟨_, ?_, (updated_record_fields row0 updates now).1,
        (updated_record_fields row0 updates now).2⟩, ?_⟩
      · rw [hstep]
        exact applyUpdates_cache _ sid updates now row0 hcache'
      · intro row hrow
        rw [hstep]
        exact applyUpdates_db _ sid updates now row hrow

/-- C10 witness: updating a missing id returns `False` and changes nothing;
updating a session present in the database returns `True`, stamps
`last_used` and stores the given `username`. -/
theorem update_session_spec_witness :
    updateSession ⟨[], []⟩ "nope" [("username", Json.str "u")] "T1" = (false, ⟨[], []⟩) ∧
    (updateSession ⟨[], [("s1", [("domain", Json.str "d")])]⟩ "s1"
      [("username", Json.str "u")] "T1").1 = true ∧
    dictGet (updateSession ⟨[], [("s1", [("domain", Json.str "d")])]⟩ "s1"
      [("username", Json.str "u")] "T1").2.dbSessions "s1" =
      some (setKey "last_used" (Json.str "T1")
        (pyDictUpdate [("domain", Json.str "d")] [("username", Json.str "u")])) := by
  refine ⟨?_, ?_, ?_⟩
  · exact (update_session_spec ⟨[], []⟩ "nope" [("username", Json.str "u")] "T1").1
      rfl rfl
  · exact ((update_session_spec ⟨[], [("s1", [("domain", Json.str "d")])]⟩ "s1"
      [("username", Json.str "u")] "T1").2 (Or.inr rfl)).1
  · exact ((update_session_spec ⟨[], [("s1", [("domain", Json.str "d")])]⟩ "s1"
      [("username", Json.str "u")] "T1").2 (Or.inr rfl)).2.2
      [("domain", Json.str "d")] rfl

/-! ### Bridge routing lemmas -/

theorem getStrField_isSome (e : List (String × Json)) (n : String)
    (h : strFieldOk e n = true) : ∃ s, getStrField e n = some s := by
  cases hd : dictGet e n with
  | none => exact ⟨"", by simp [getStrField, hd]⟩
  | some j =>
    cases j with
    | str s => exact ⟨s, by simp [getStrField, hd]⟩
    | null => simp [strFieldOk, hd] at h
    | bool b => simp [strFieldOk, hd] at h
    | num n => simp [strFieldOk, hd] at h
    | arr l => simp [strFieldOk, hd] at h
    | obj l => simp [strFieldOk, hd] at h

theorem isLoginRequest_wf (r : Json) (h : wellFormedRequest r = true) :
    ∃ b, isLoginRequest r = some b := by
  cases r with
  | obj e =>
    simp only [wellFormedRequest, Bool.and_eq_true] at h
    obtain ⟨⟨hu, hm⟩, hb⟩ := h
    obtain ⟨su, hsu⟩ := getStrField_isSome e "url" hu
    obtain ⟨sm, hsm⟩ := getStrField_isSome e "method" hm
    obtain ⟨sb, hsb⟩ := getStrField_isSome e "requestBody" hb
    simp only [isLoginRequest, hsu, hsm, hsb, Option.bind_eq_bind, Option.some_bind]
    split
    · exact ⟨true, rfl⟩
    · exact ⟨_, rfl⟩
  | null => simp [wellFormedRequest] at h
  | bool b => simp [wellFormedRequest] at h
  | num n => simp [wellFormedRequest] at h
  | str s => simp [wellFormedRequest] at h
  | arr l => simp [wellFormedRequest] at h

theorem processAll_wf (rs : List Json) (h : ∀ r ∈ rs, wellFormedRequest r = true) :
    processAll rs = some () := by
  induction rs with
  | nil => rfl
  | cons r rest ih =>
    obtain ⟨b, hb⟩ := isLoginRequest_wf r (h r (by simp))
    have hone : processOneRequest r = some () := by
      simp [processOneRequest, hb]
    simp only [processAll, hone, Option.bind_eq_bind, Option.some_bind]
    exact ih (fun x hx => h x (by simp [hx]))

theorem captureHandler_wf (l : List (String × Json)) (h : wellFormedCapture l = true) :
    captureHandler l = some () := by
  cases hd : dictGet l "requests" with
  | none => simp [captureHandler, processBrowserData, hd, jsonTruthy, jsonLen]
  | some j =>
    cases j with
    | arr rs =>
      have hall : ∀ r ∈ rs, wellFormedRequest r = true := by
        intro r hr
        have := h
        simp only [wellFormedCapture, hd, List.all_eq_true] at this
        exact this r hr
      cases rs with
      | nil => simp [captureHandler, processBrowserData, hd, jsonTruthy, jsonLen]
      | cons r rest =>
        have hpa := processAll_wf (r :: rest) hall
        simp [captureHandler, processBrowserData, hd, jsonTruthy, jsonIter, hpa, jsonLen]
    | null => simp [wellFormedCapture, hd] at h
    | bool b => simp [wellFormedCapture, hd] at h
    | num n => simp [wellFormedCapture, hd] at h
    | str s => simp [wellFormedCapture, hd] at h
    | obj o => simp [wellFormedCapture, hd] at h

theorem sessionHandler_wf (l : List (String × Json)) (h : wellFormedSession l = true) :
    sessionHandler l = some () := by
  unfold sessionHandler
  cases hd : dictGet l "session_id" with
  | none => rfl
  | some sid =>
    simp only [wellFormedSession, hd, Bool.or_eq_true, Bool.not_eq_true'] at h
    by_cases ht : jsonTruthy sid = true
    · rcases h with hf | hh
      · rw [ht] at hf; exact absurd hf (by simp)
      · simp [ht, hh]
    · simp [ht]

theorem captchaHandler_obj (l : List (String × Json)) (c : List (String × Json))
    (h : dictGet l "captcha" = some (Json.obj c)) : captchaHandler l = some () := by
  simp [captchaHandler, h]

/-- C8 counterexample.  A POST whose body is not parsable JSON is answered
500 on *every* path — `do_POST` decodes and parses the body before looking
at the path — so a POST to a non-endpoint path does not always get the 404
the claim states. -/
theorem bridge_routing_counterexample :
    doPOST "/not-an-endpoint" none = ⟨500, false⟩ ∧ (500 : Nat) ≠ 404 := by
  exact ⟨rfl, by decide⟩

/-- C8 (amended): GET requests to paths other than `/status`, `/data` and
`/launch/…` are answered 404; POST requests whose body parses as JSON and
whose path is none of `/capture`, `/session`, `/captcha` are answered 404,
while a POST whose body fails to parse is answered 500 on every path; and
each of the six endpoints, on well-formed input, answers 200 with a JSON
body. -/
theorem bridge_routing (path : String) :
    (path ≠ "/status" → path ≠ "/data" → strStartsWith path "/launch/" = false →
      doGET path = ⟨404, false⟩) ∧
    doGET "/status" = ⟨200, true⟩ ∧
    doGET "/data" = ⟨200, true⟩ ∧
    (strStartsWith path "/launch/" = true → doGET path = ⟨200, true⟩) ∧
    doPOST path none = ⟨500, false⟩ ∧
    (∀ data, path ≠ "/capture" → path ≠ "/session" → path ≠ "/captcha" →
      doPOST path (some data) = ⟨404, false⟩) ∧
    (∀ l, wellFormedCapture l = true →
      doPOST "/capture" (some (Json.obj l)) = ⟨200, true⟩) ∧
    (∀ l, wellFormedSession l = true →
      doPOST "/session" (some (Json.obj l)) = ⟨200, true⟩) ∧
    (∀ l c, dictGet l "captcha" = some (Json.obj c) →
      doPOST "/captcha" (some (Json.obj l)) = ⟨200, true⟩) := by
  refine ⟨?_, rfl, rfl, ?_, rfl, ?_, ?_, ?_, ?_⟩
  · intro h1 h2 h3
    simp [doGET, h1, h2, h3]
  · intro h
    by_cases h1 : path = "/status"
    · simp [doGET, h1]
    · by_cases h2 : path = "/data"
      · simp [doGET, h1, h2]
      · simp [doGET, h1, h2, h]
  · intro data h1 h2 h3
    simp [doPOST, h1, h2, h3]
  · intro l h
    simp [doPOST, captureHandler_wf l h]
  · intro l h
    simp [doPOST, sessionHandler_wf l h]
  · intro l c h
    simp [doPOST, captchaHandler_obj l c h]

/-- C8 witness: the amended routing theorem instantiated on concrete
requests — GET `/nowhere` is 404, GET `/launch/api_tester` is 200, POST
`/nowhere` with the parsed body `null` is 404, and the three POST endpoints
answer 200 on well-formed bodies. -/
theorem bridge_routing_witness :
    doGET "/nowhere" = ⟨404, false⟩ ∧
    doGET "/launch/api_tester" = ⟨200, true⟩ ∧
    doPOST "/nowhere" (some Json.null) = ⟨404, false⟩ ∧
    doPOST "/capture" (some (Json.obj [])) = ⟨200, true⟩ ∧
    doPOST "/session" (some (Json.obj [("session_id", Json.str "abc")])) = ⟨200, true⟩ ∧
    doPOST "/captcha" (some (Json.obj [("captcha", Json.obj [])])) = ⟨200, true⟩ := by
  refine ⟨?_, ?_, ?_, ?_, ?_, ?_⟩
  · exact (bridge_routing "/nowhere").1 (by decide) (by decide) (by decide)
  · exact (bridge_routing "/launch/api_tester").2.2.2.1 (by decide)
  · exact (bridge_routing "/nowhere").2.2.2.2.2.1 Json.null
      (by decide) (by decide) (by decide)
  · exact (bridge_routing "/capture").2.2.2.2.2.2.1 [] rfl
  · exact (bridge_routing "/session").2.2.2.2.2.2.2.1
      [("session_id", Json.str "abc")] rfl
  · exact (bridge_routing "/captcha").2.2.2.2.2.2.2.2
      [("captcha", Json.obj [])] [] rfl

end TurboX
